import Mathlib

/-!
Shallow embedding of the Membership & Visibility Access-Control Engine of the
fanclub site (src/server.js, sqlite handlers and the supabase variant in the
same file, plus src/supabase-schema.sql).  Database tables become Lean lists,
each HTTP handler becomes a pure function from a request and a `Db` state to a
typed outcome and a new state.  Storage statements whose errors the handlers
merely log (fire-and-forget `db.run` calls) take an explicit Boolean failure
flag, so that partial-failure executions are expressible.
-/

namespace Fanclub

/-- A calendar date (year, 1-based month, day), standing for the JavaScript
`Date` values the server manipulates when computing `next_payment_date`. -/
structure CalDate where
  year : Int
  month : Nat
  day : Nat
deriving Repr, DecidableEq

/-- Gregorian leap-year test, as JavaScript `Date` normalization uses. -/
def isLeapYear (y : Int) : Bool :=
  (y % 4 == 0 && y % 100 != 0) || y % 400 == 0

/-- Number of days in a month (1-based month). -/
def daysInMonth (y : Int) (m : Nat) : Nat :=
  if m = 2 then (if isLeapYear y then 29 else 28)
  else if m = 4 ∨ m = 6 ∨ m = 9 ∨ m = 11 then 30
  else 31

/-- The server computes the renewal date with
`nextPaymentDate.setMonth(nextPaymentDate.getMonth() + 1)` (server.js, sqlite
join handler and supabase join handler).  JavaScript `setMonth` keeps the
day-of-month and then normalizes: a day past the end of the target month
overflows into the following month by the excess days.  This function is that
semantics on dates with a valid day (1..31, at most one extra month of
overflow possible). -/
def jsAddOneMonth (d : CalDate) : CalDate :=
  let y2 : Int := if d.month = 12 then d.year + 1 else d.year
  let m2 : Nat := if d.month = 12 then 1 else d.month + 1
  if d.day ≤ daysInMonth y2 m2 then ⟨y2, m2, d.day⟩
  else
    let y3 : Int := if m2 = 12 then y2 + 1 else y2
    let m3 : Nat := if m2 = 12 then 1 else m2 + 1
    ⟨y3, m3, d.day - daysInMonth y2 m2⟩

/-- Modelled from the spec: the spec's "now + 1 calendar month" where a
day-of-month that does not exist in the target month "clamps to the last
valid day of that month".  Present only to be compared with the source's
`jsAddOneMonth`; the repository contains no clamping code. -/
def clampAddOneMonth (d : CalDate) : CalDate :=
  let y2 : Int := if d.month = 12 then d.year + 1 else d.year
  let m2 : Nat := if d.month = 12 then 1 else d.month + 1
  ⟨y2, m2, min d.day (daysInMonth y2 m2)⟩

/-- A row of the `fanclubs` table (columns the access-control engine reads).
`member_count` is an SQL INTEGER, so it can go negative; it defaults to 1 on
insert (both schemas). -/
structure FanclubRow where
  id : Nat
  name : String
  description : String
  monthly_fee : Int
  purpose : String
  owner_id : Nat
  member_count : Int
deriving Repr, DecidableEq

/-- A row of the `memberships` table.  `next_payment_date` is NULL for the
owner row created at fanclub creation. -/
structure MembershipRow where
  user_id : Nat
  fanclub_id : Nat
  is_owner : Bool
  next_payment_date : Option CalDate
deriving Repr, DecidableEq

/-- A row of the `posts` table (columns the access-control engine reads). -/
structure PostRow where
  id : Nat
  fanclub_id : Nat
  author_id : Nat
  title : String
  content : String
  excerpt : String
  visibility : String
  published_at : Nat
deriving Repr, DecidableEq

/-- The database state: the three tables the engine touches, plus the
autoincrement counters for the two tables whose fresh ids the handlers use. -/
structure Db where
  fanclubs : List FanclubRow
  memberships : List MembershipRow
  posts : List PostRow
  nextFanclubId : Nat
  nextPostId : Nat
deriving Repr, DecidableEq

/-- The typed outcomes the handlers produce (HTTP statuses in server.js):
missing required fields (400), duplicate join (400), the sqlite leave
handler's "could not leave" (400), missing publish permission (403), and a
storage-level error surfaced as 500. -/
inductive ApiError where
  | validationError
  | alreadyMember
  | cannotLeave
  | forbidden
  | dbError
deriving Repr, DecidableEq

instance {ε α : Type} [DecidableEq ε] [DecidableEq α] : DecidableEq (Except ε α)
  | .ok a, .ok b =>
      if h : a = b then .isTrue (by rw [h])
      else .isFalse (by intro hh; cases hh; exact h rfl)
  | .error a, .error b =>
      if h : a = b then .isTrue (by rw [h])
      else .isFalse (by intro hh; cases hh; exact h rfl)
  | .ok _, .error _ => .isFalse (by intro h; cases h)
  | .error _, .ok _ => .isFalse (by intro h; cases h)

/-- `SELECT * FROM memberships WHERE user_id = ? AND fanclub_id = ?` produced
a row — the membership lookup both the join handler and the posts-listing
EXISTS subquery perform. -/
def isMemberRow (st : Db) (uid fid : Nat) : Bool :=
  st.memberships.any fun m => m.user_id == uid && m.fanclub_id == fid

/-- `SELECT * FROM memberships WHERE user_id = ? AND fanclub_id = ? AND
is_owner = TRUE` produced a row — the owner check of the post-creation
handler. -/
def isOwnerRow (st : Db) (uid fid : Nat) : Bool :=
  st.memberships.any fun m => m.user_id == uid && m.fanclub_id == fid && m.is_owner

/-- The WHERE clause of the sqlite posts listing (GET /api/fanclubs/:id/posts):
with a `user_id` query parameter the row qualifies when it is public or when
it is members-only and the EXISTS membership subquery succeeds; without the
parameter only public rows qualify.  The parameter comes straight from
`req.query.user_id`; the route has no authentication middleware. -/
def postVisibleSql (st : Db) (fid : Nat) (userId : Option Nat) (p : PostRow) : Bool :=
  match userId with
  | some u => p.visibility == "public" || (p.visibility == "members" && isMemberRow st u fid)
  | none => p.visibility == "public"

/-- Comparison used by `ORDER BY p.published_at DESC`. -/
def publishedGE (a b : PostRow) : Prop := b.published_at ≤ a.published_at

instance : DecidableRel publishedGE :=
  fun a b => inferInstanceAs (Decidable (b.published_at ≤ a.published_at))

instance : IsTotal PostRow publishedGE :=
  ⟨fun a b => Nat.le_total b.published_at a.published_at⟩

instance : IsTrans PostRow publishedGE :=
  ⟨fun _ _ _ hab hbc => Nat.le_trans hbc hab⟩

/-- GET /api/fanclubs/:id/posts, sqlite variant: select the fanclub's rows
through the visibility WHERE clause, ordered by `published_at` descending. -/
def listPostsSql (st : Db) (fid : Nat) (userId : Option Nat) : List PostRow :=
  List.insertionSort publishedGE
    (st.posts.filter fun p => p.fanclub_id == fid && postVisibleSql st fid userId p)

/-- GET /api/fanclubs/:id/posts, supabase variant: with a `user_id` query
parameter the handler first looks the membership up, then requests either
`visibility in ('public','members')` or `visibility = 'public'`; without the
parameter only public rows; ordered by `published_at` descending. -/
def listPostsSupabase (st : Db) (fid : Nat) (userId : Option Nat) : List PostRow :=
  let base := st.posts.filter fun p => p.fanclub_id == fid
  let rows :=
    match userId with
    | some u =>
        if isMemberRow st u fid then
          base.filter fun p => p.visibility == "public" || p.visibility == "members"
        else
          base.filter fun p => p.visibility == "public"
    | none => base.filter fun p => p.visibility == "public"
  List.insertionSort publishedGE rows

/-- JavaScript `visibility || 'public'` on the optional request field: an
absent field or an empty string is falsy and yields `'public'`; any other
string is kept. -/
def visibilityOrPublic : Option String → String
  | none => "public"
  | some s => if s = "" then "public" else s

/-- POST /api/fanclubs (sqlite): `!name || !purpose` rejects with 400 before
touching storage; otherwise the fanclub row is inserted (`member_count`
defaults to 1 in both schemas) and the owner membership is inserted by a
separate `db.run` whose error is only `console.error`'d — `memFails` is that
second insert failing.  The handler answers 201 with the fanclub id in both
cases.  `monthly_fee || 0` defaults a falsy fee to 0. -/
def createFanclubSql (st : Db) (uid : Nat) (name description purpose : String)
    (fee : Option Int) (memFails : Bool) : Except ApiError Nat × Db :=
  if name = "" ∨ purpose = "" then (.error .validationError, st)
  else
    let fid := st.nextFanclubId
    let row : FanclubRow :=
      { id := fid, name := name, description := description
        monthly_fee := fee.getD 0, purpose := purpose
        owner_id := uid, member_count := 1 }
    let st1 := { st with fanclubs := st.fanclubs ++ [row],
                         nextFanclubId := st.nextFanclubId + 1 }
    let st2 :=
      if memFails then st1
      else { st1 with memberships :=
              st1.memberships ++ [{ user_id := uid, fanclub_id := fid,
                                    is_owner := true, next_payment_date := none }] }
    (.ok fid, st2)

/-- `UPDATE fanclubs SET member_count = member_count + 1 WHERE id = ?`. -/
def bumpMemberCount (delta : Int) (fid : Nat) (fs : List FanclubRow) : List FanclubRow :=
  fs.map fun f => if f.id == fid then { f with member_count := f.member_count + delta } else f

/-- POST /api/fanclubs/:id/join (sqlite): a SELECT first checks for an
existing (user, fanclub) membership and answers 400 if one exists; otherwise
the membership row is inserted with `next_payment_date` one JavaScript month
ahead, and the `member_count` increment runs as a separate `db.run` whose
error is only logged — `countFails` is that update failing.  The handler
never checks that the fanclub exists (sqlite runs without PRAGMA
foreign_keys, so the insert succeeds regardless). -/
def joinSql (st : Db) (uid fid : Nat) (now : CalDate) (countFails : Bool) :
    Except ApiError Unit × Db :=
  if isMemberRow st uid fid then (.error .alreadyMember, st)
  else
    let st1 := { st with memberships :=
        st.memberships ++ [{ user_id := uid, fanclub_id := fid, is_owner := false,
                             next_payment_date := some (jsAddOneMonth now) }] }
    let st2 :=
      if countFails then st1
      else { st1 with fanclubs := bumpMemberCount 1 fid st1.fanclubs }
    (.ok (), st2)

/-- `INSERT INTO memberships ...` honoring the `UNIQUE(user_id, fanclub_id)`
constraint both schemas declare: the insert fails (`none`) when a row for the
pair already exists, which the handler's callback surfaces as the generic 500
insert error. -/
def insertMembershipUnique (st : Db) (row : MembershipRow) : Option Db :=
  if isMemberRow st row.user_id row.fanclub_id then none
  else some { st with memberships := st.memberships ++ [row] }

/-- The duplicate-join race on the sqlite handler: the handler performs the
membership SELECT and the INSERT as two separate round trips, so two
concurrent requests for the same (user, fanclub) can both run their check
against the initial state before either INSERT executes.  Both checks pass,
the INSERTs then serialize: the first succeeds and its handler continues with
the count update and a success response; the second INSERT violates
`UNIQUE(user_id, fanclub_id)` and its callback answers the generic 500 insert
error.  Result: (first response, second response, final state). -/
def joinRaceSql (st : Db) (uid fid : Nat) (d1 d2 : CalDate) :
    Except ApiError Unit × Except ApiError Unit × Db :=
  if isMemberRow st uid fid then
    (.error .alreadyMember, .error .alreadyMember, st)
  else
    let row1 : MembershipRow :=
      { user_id := uid, fanclub_id := fid, is_owner := false,
        next_payment_date := some (jsAddOneMonth d1) }
    let row2 : MembershipRow :=
      { user_id := uid, fanclub_id := fid, is_owner := false,
        next_payment_date := some (jsAddOneMonth d2) }
    match insertMembershipUnique st row1 with
    | none => (.error .dbError, .error .dbError, st)
    | some st1 =>
        let st2 := { st1 with fanclubs := bumpMemberCount 1 fid st1.fanclubs }
        match insertMembershipUnique st2 row2 with
        | none => (.ok (), .error .dbError, st2)
        | some st3 =>
            (.ok (), .ok (), { st3 with fanclubs := bumpMemberCount 1 fid st3.fanclubs })

/-- Predicate of the sqlite leave DELETE:
`DELETE FROM memberships WHERE user_id = ? AND fanclub_id = ? AND is_owner = FALSE`. -/
def leaveHits (uid fid : Nat) (m : MembershipRow) : Bool :=
  m.user_id == uid && m.fanclub_id == fid && m.is_owner == false

/-- DELETE /api/fanclubs/:id/leave (sqlite): the DELETE removes the non-owner
membership; `this.changes === 0` answers 400 with nothing else run; otherwise
the `member_count` decrement (`member_count - 1`, no clamp) runs as a
separate `db.run` whose error is only logged — `countFails` is that update
failing. -/
def leaveSql (st : Db) (uid fid : Nat) (countFails : Bool) :
    Except ApiError Unit × Db :=
  let remaining := st.memberships.filter fun m => !leaveHits uid fid m
  if remaining.length == st.memberships.length then (.error .cannotLeave, st)
  else
    let st1 := { st with memberships := remaining }
    let st2 :=
      if countFails then st1
      else { st1 with fanclubs := bumpMemberCount (-1) fid st1.fanclubs }
    (.ok (), st2)

/-- The `decrement_member_count` Postgres function of src/supabase-schema.sql:
`member_count = GREATEST(member_count - 1, 0)` on the targeted row. -/
def decrement_member_count (st : Db) (fid : Nat) : Db :=
  { st with fanclubs := st.fanclubs.map fun f =>
      if f.id == fid then { f with member_count := max (f.member_count - 1) 0 } else f }

/-- DELETE /api/fanclubs/:id/leave (supabase): the delete filtered by
user/fanclub/is_owner=false reports no error when it removes zero rows, and
the handler then calls the `decrement_member_count` RPC unconditionally (its
error only logged) and answers success either way. -/
def leaveSupabase (st : Db) (uid fid : Nat) : Except ApiError Unit × Db :=
  let st1 := { st with memberships := st.memberships.filter fun m => !leaveHits uid fid m }
  let st2 := decrement_member_count st1 fid
  (.ok (), st2)

/-- POST /api/fanclubs/:id/posts (sqlite): `!title || !content` answers 400;
then the owner check answers 403 when no `is_owner = TRUE` membership exists;
then the INSERT stores `visibility || 'public'`, which the schema CHECK
constraint `visibility IN ('public','members')` rejects (a 500) for any other
value. -/
def createPostSql (st : Db) (uid fid : Nat) (title content excerpt : String)
    (visibility : Option String) (now : Nat) : Except ApiError Nat × Db :=
  if title = "" ∨ content = "" then (.error .validationError, st)
  else if !isOwnerRow st uid fid then (.error .forbidden, st)
  else
    let vis := visibilityOrPublic visibility
    if vis = "public" ∨ vis = "members" then
      let pid := st.nextPostId
      let row : PostRow :=
        { id := pid, fanclub_id := fid, author_id := uid, title := title
          content := content, excerpt := excerpt, visibility := vis
          published_at := now }
      (.ok pid, { st with posts := st.posts ++ [row], nextPostId := st.nextPostId + 1 })
    else (.error .dbError, st)

/-- Memberships rows referencing a fanclub, whose cardinality the spec's
counter invariant compares with `member_count`. -/
def memberRows (st : Db) (fid : Nat) : Nat :=
  (st.memberships.filter fun m => m.fanclub_id == fid).length

/-- The empty database. -/
def dbEmpty : Db :=
  { fanclubs := [], memberships := [], posts := [], nextFanclubId := 1, nextPostId := 1 }

/-- A database with fanclub 1 owned by user 1, user 2 an ordinary member
(`member_count = 2`, matching the two membership rows), one public post and
one members-only post. -/
def dbOne : Db :=
  { fanclubs := [{ id := 1, name := "club", description := "d", monthly_fee := 500,
                   purpose := "fun", owner_id := 1, member_count := 2 }]
    memberships := [{ user_id := 1, fanclub_id := 1, is_owner := true,
                      next_payment_date := none },
                    { user_id := 2, fanclub_id := 1, is_owner := false,
                      next_payment_date := some ⟨2025, 2, 1⟩ }]
    posts := [{ id := 1, fanclub_id := 1, author_id := 1, title := "hello",
                content := "world", excerpt := "", visibility := "public",
                published_at := 10 },
              { id := 2, fanclub_id := 1, author_id := 1, title := "secret",
                content := "inner", excerpt := "", visibility := "members",
                published_at := 20 }]
    nextFanclubId := 2, nextPostId := 3 }

/-- A database with fanclub 1 owned by user 1 and nobody else
(`member_count = 1`, matching the single owner membership row). -/
def dbOwnerOnly : Db :=
  { fanclubs := [{ id := 1, name := "club", description := "d", monthly_fee := 500,
                   purpose := "fun", owner_id := 1, member_count := 1 }]
    memberships := [{ user_id := 1, fanclub_id := 1, is_owner := true,
                      next_payment_date := none }]
    posts := [], nextFanclubId := 2, nextPostId := 1 }

/-- State trace behind the negative-counter counterexample: user 1 creates a
fanclub, then twice in a row a user joins while the fire-and-forget
`member_count` increment fails and then leaves with the decrement
succeeding. -/
def driftState1 : Db := (createFanclubSql dbEmpty 1 "c" "" "p" none false).2

def driftState2 : Db := (joinSql driftState1 2 1 ⟨2025, 1, 15⟩ true).2

def driftState3 : Db := (leaveSql driftState2 2 1 false).2

def driftState4 : Db := (joinSql driftState3 3 1 ⟨2025, 2, 15⟩ true).2

def driftState5 : Db := (leaveSql driftState4 3 1 false).2


/-- Claim C1: for every fanclub and every viewer (the optional user id the
request carries), both variants of GET /api/fanclubs/:id/posts return exactly
the posts the visibility gate allows — every public post of the fanclub for
any viewer, and a members-only post exactly when the viewer is a concrete
identity holding a membership in the fanclub (an anonymous viewer gets only
public posts) — and the returned sequence is ordered by `published_at`
descending. -/
theorem listVisiblePosts_gate_and_order (st : Db) (fid : Nat) (viewer : Option Nat)
    (p : PostRow) :
    ((p ∈ listPostsSql st fid viewer ↔
        p ∈ st.posts ∧ p.fanclub_id = fid ∧
          (p.visibility = "public" ∨
            (p.visibility = "members" ∧ ∃ u, viewer = some u ∧ isMemberRow st u fid = true)))
      ∧ (listPostsSql st fid viewer).Sorted publishedGE)
    ∧ ((p ∈ listPostsSupabase st fid viewer ↔
        p ∈ st.posts ∧ p.fanclub_id = fid ∧
          (p.visibility = "public" ∨
            (p.visibility = "members" ∧ ∃ u, viewer = some u ∧ isMemberRow st u fid = true)))
      ∧ (listPostsSupabase st fid viewer).Sorted publishedGE) := by
  refine ⟨⟨?_, List.sorted_insertionSort publishedGE _⟩,
          ⟨?_, List.sorted_insertionSort publishedGE _⟩⟩
  · cases viewer with
    | none => simp [listPostsSql, postVisibleSql]
    | some u => simp [listPostsSql, postVisibleSql]
  · cases viewer with
    | none => simp [listPostsSupabase]; tauto
    | some u =>
        by_cases hm : isMemberRow st u fid
        · simp [listPostsSupabase, hm]
          tauto
        · simp [listPostsSupabase, hm]
          tauto

/-- Claim C2: the posts route carries no authentication middleware, so the two
requests below both carry no verified identity, yet the returned post sets
differ because the handler trusts the client-supplied `user_id` query
parameter: with `user_id=2` (a member's id, chosen freely by the caller) the
members-only post is returned, with `user_id=3` it is not. -/
theorem listPosts_depends_on_client_user_id :
    listPostsSql dbOne 1 (some 2) ≠ listPostsSql dbOne 1 (some 3)
    ∧ listPostsSupabase dbOne 1 (some 2) ≠ listPostsSupabase dbOne 1 (some 3) := by
  decide

/-- Claim C3: the `member_count` increment of the sqlite join handler is a
separate fire-and-forget statement; when it fails (its error only logged) the
handler still answers success with the membership row inserted, and the
stored `member_count` (2) no longer equals the number of membership rows
referencing the fanclub (3). -/
theorem join_count_drift_on_partial_failure :
    (joinSql dbOne 3 1 ⟨2025, 1, 15⟩ true).1 = .ok ()
    ∧ ((joinSql dbOne 3 1 ⟨2025, 1, 15⟩ true).2.fanclubs.any
        fun f => f.id == 1 && f.member_count != (memberRows (joinSql dbOne 3 1 ⟨2025, 1, 15⟩ true).2 1 : Int)) = true := by
  decide

/-- Claim C4, counterexample, refuting both failing parts of the claim.
First, fanclub 99 does not exist in the empty database, yet the join handler
— which never looks the fanclub up — answers success rather than NotFound,
inserting a membership row for the missing fanclub.  Second, two concurrent
join calls for user 2 and fanclub 1 whose membership checks both read the
pre-insert state succeed exactly once, but the competing call fails with the
generic 500 insert error from the UNIQUE-constraint violation, not with
AlreadyMember as the claim requires. -/
theorem join_notfound_and_race_counterexample :
    (joinSql dbEmpty 1 99 ⟨2025, 1, 15⟩ false).1 = .ok ()
    ∧ (dbEmpty.fanclubs.any fun f => f.id == 99) = false
    ∧ memberRows (joinSql dbEmpty 1 99 ⟨2025, 1, 15⟩ false).2 99 = 1
    ∧ (joinRaceSql dbOwnerOnly 2 1 ⟨2025, 1, 15⟩ ⟨2025, 1, 15⟩).1 = .ok ()
    ∧ (joinRaceSql dbOwnerOnly 2 1 ⟨2025, 1, 15⟩ ⟨2025, 1, 15⟩).2.1 = .error .dbError
    ∧ ApiError.dbError ≠ ApiError.alreadyMember := by
  decide

/-- Claim C4 as amended: join fails with AlreadyMember exactly when a
membership for the pair already exists (leaving the state unchanged), and two
sequential joins of the same pair succeed exactly once, the second failing
with AlreadyMember.  There is no fanclub-existence check, so no NotFound
outcome exists.  Two concurrent joins of the same pair whose checks both read
the pre-insert state also succeed exactly once — the UNIQUE(user_id,
fanclub_id) constraint blocks the second INSERT — but the competing call
fails with the generic 500 insert error, not AlreadyMember. -/
theorem join_already_member_spec (st : Db) (u fid : Nat) (d d2 : CalDate)
    (cf cf2 : Bool) :
    (isMemberRow st u fid = true →
      joinSql st u fid d cf = (.error .alreadyMember, st))
    ∧ (isMemberRow st u fid = false →
        (joinSql st u fid d cf).1 = .ok ()
        ∧ (joinSql (joinSql st u fid d cf).2 u fid d2 cf2).1 = .error .alreadyMember)
    ∧ (isMemberRow st u fid = false →
        (joinRaceSql st u fid d d2).1 = .ok ()
        ∧ (joinRaceSql st u fid d d2).2.1 = .error .dbError) := by
  refine ⟨?_, ?_, ?_⟩
  · intro h
    simp [joinSql, h]
  · intro h
    refine ⟨by simp [joinSql, h], ?_⟩
    set st2 := (joinSql st u fid d cf).2 with hst2
    have hstep : st2.memberships
        = st.memberships ++ [{ user_id := u, fanclub_id := fid, is_owner := false,
                               next_payment_date := some (jsAddOneMonth d) }] := by
      rw [hst2]
      cases cf <;> simp [joinSql, h, bumpMemberCount]
    have hmem : isMemberRow st2 u fid = true := by
      rw [isMemberRow, hstep]
      simp
    simp [joinSql, hmem]
  · intro h
    have huf : (st.memberships.any fun m => m.user_id == u && m.fanclub_id == fid) = false := h
    constructor <;>
      simp [joinRaceSql, insertMembershipUnique, isMemberRow, huf]

/-- Witness for the amended C4 theorem at a concrete input: user 2 is already
a member of fanclub 1 in `dbOne`; user 3 is not, and both the sequential and
the racing second join for user 3 fail (with AlreadyMember and the generic
insert error respectively). -/
theorem join_already_member_spec_witness :
    joinSql dbOne 2 1 ⟨2025, 3, 1⟩ false = (.error .alreadyMember, dbOne)
    ∧ (joinSql (joinSql dbOne 3 1 ⟨2025, 3, 1⟩ false).2 3 1 ⟨2025, 4, 1⟩ false).1
        = .error .alreadyMember
    ∧ (joinRaceSql dbOne 3 1 ⟨2025, 3, 1⟩ ⟨2025, 4, 1⟩).2.1 = .error .dbError :=
  ⟨(join_already_member_spec dbOne 2 1 ⟨2025, 3, 1⟩ ⟨2025, 4, 1⟩ false false).1 (by decide),
   ((join_already_member_spec dbOne 3 1 ⟨2025, 3, 1⟩ ⟨2025, 4, 1⟩ false false).2.1 (by decide)).2,
   ((join_already_member_spec dbOne 3 1 ⟨2025, 3, 1⟩ ⟨2025, 4, 1⟩ false false).2.2 (by decide)).2⟩

/-- Claim C5: the supabase leave handler deletes with an `is_owner = false`
filter but then calls the `decrement_member_count` RPC unconditionally, so an
owner's leave request — which the claim requires to fail with Forbidden and
change nothing — answers success, deletes no membership row, and still
decrements the fanclub's `member_count` from 1 to 0: a decrement without a
delete. -/
theorem leave_supabase_decrement_without_delete :
    (leaveSupabase dbOwnerOnly 1 1).1 = .ok ()
    ∧ (leaveSupabase dbOwnerOnly 1 1).2.memberships = dbOwnerOnly.memberships
    ∧ ((leaveSupabase dbOwnerOnly 1 1).2.fanclubs.any
        fun f => f.id == 1 && f.member_count == 0) = true
    ∧ (dbOwnerOnly.fanclubs.any fun f => f.id == 1 && f.member_count == 1) = true := by
  decide

/-- Claim C6: with the required title and content present and a storable
visibility value, post creation succeeds exactly when the requester holds the
fanclub's `is_owner` membership — the code's publish decision — and any
non-owner attempt (an ordinary member included) fails with Forbidden. -/
theorem canPublish_owner_only (st : Db) (u fid : Nat) (t c e : String)
    (v : Option String) (now : Nat)
    (ht : t ≠ "") (hc : c ≠ "")
    (hv : visibilityOrPublic v = "public" ∨ visibilityOrPublic v = "members") :
    ((∃ pid, (createPostSql st u fid t c e v now).1 = .ok pid)
        ↔ isOwnerRow st u fid = true)
    ∧ (isOwnerRow st u fid = false →
        (createPostSql st u fid t c e v now).1 = .error .forbidden) := by
  by_cases hown : isOwnerRow st u fid = true
  · refine ⟨⟨fun _ => hown, fun _ => ⟨st.nextPostId, ?_⟩⟩,
            fun hf => by rw [hown] at hf; cases hf⟩
    rcases hv with h | h <;> simp [createPostSql, ht, hc, hown, h]
  · have hof : isOwnerRow st u fid = false := by
      cases hh : isOwnerRow st u fid
      · rfl
      · exact absurd hh hown
    refine ⟨⟨fun hex => ?_, fun hh => absurd hh hown⟩, fun _ => ?_⟩
    · obtain ⟨pid, hok⟩ := hex
      simp [createPostSql, ht, hc, hof] at hok
    · simp [createPostSql, ht, hc, hof]

/-- Witness for the C6 theorem at a concrete input: user 1 owns fanclub 1 of
`dbOne` and can publish; user 2, an ordinary member, gets Forbidden. -/
theorem canPublish_owner_only_witness :
    (∃ pid, (createPostSql dbOne 1 1 "t" "c" "" none 5).1 = .ok pid)
    ∧ (createPostSql dbOne 2 1 "t" "c" "" none 5).1 = .error .forbidden :=
  ⟨(canPublish_owner_only dbOne 1 1 "t" "c" "" none 5 (by decide) (by decide)
      (Or.inl (by decide))).1.mpr (by decide),
   (canPublish_owner_only dbOne 2 1 "t" "c" "" none 5 (by decide) (by decide)
      (Or.inl (by decide))).2 (by decide)⟩

/-- Claim C7: the owner-membership insert of the sqlite fanclub-creation
handler is a separate statement whose error is only logged; when it fails the
handler still answers 201 with the new fanclub id, leaving a fanclub row with
`member_count = 1` and no owner membership at all. -/
theorem create_fanclub_success_without_owner_membership :
    (createFanclubSql dbEmpty 1 "club" "d" "fun" (some 500) true).1 = .ok 1
    ∧ ((createFanclubSql dbEmpty 1 "club" "d" "fun" (some 500) true).2.fanclubs.any
        fun f => f.id == 1 && f.owner_id == 1 && f.member_count == 1) = true
    ∧ (createFanclubSql dbEmpty 1 "club" "d" "fun" (some 500) true).2.memberships = [] := by
  decide

/-- Claim C8, counterexample: joining on 2025-01-31 stores
`next_payment_date = 2025-03-03` — JavaScript `setMonth` overflow — while the
claimed clamping arithmetic would give 2025-02-28; the two differ. -/
theorem join_next_payment_overflow_counterexample :
    ((joinSql dbOwnerOnly 2 1 ⟨2025, 1, 31⟩ false).2.memberships.any
      fun m => m.user_id == 2 && m.next_payment_date == some ⟨2025, 3, 3⟩) = true
    ∧ clampAddOneMonth ⟨2025, 1, 31⟩ = ⟨2025, 2, 28⟩
    ∧ jsAddOneMonth ⟨2025, 1, 31⟩ ≠ clampAddOneMonth ⟨2025, 1, 31⟩ := by
  decide

/-- Claim C8 as amended: every successful join stores
`next_payment_date = jsAddOneMonth now`, the JavaScript `setMonth` semantics,
under which a day-of-month missing from the target month overflows into the
following month by the excess days rather than clamping (and is not a fixed
30-day offset). -/
theorem join_next_payment_js_month (st : Db) (u fid : Nat) (d : CalDate)
    (cf : Bool) (h : isMemberRow st u fid = false) :
    ∃ m ∈ (joinSql st u fid d cf).2.memberships,
      m.user_id = u ∧ m.fanclub_id = fid ∧ m.is_owner = false
      ∧ m.next_payment_date = some (jsAddOneMonth d) := by
  refine ⟨{ user_id := u, fanclub_id := fid, is_owner := false,
            next_payment_date := some (jsAddOneMonth d) }, ?_, rfl, rfl, rfl, rfl⟩
  cases cf <;> simp [joinSql, h, bumpMemberCount]

/-- Witness for the amended C8 theorem at a concrete input: user 2 joins
fanclub 1 of `dbOwnerOnly` on 2025-01-31 and the stored renewal date is
2025-03-03. -/
theorem join_next_payment_js_month_witness :
    ∃ m ∈ (joinSql dbOwnerOnly 2 1 ⟨2025, 1, 31⟩ false).2.memberships,
      m.user_id = 2 ∧ m.fanclub_id = 1 ∧ m.is_owner = false
      ∧ m.next_payment_date = some (jsAddOneMonth ⟨2025, 1, 31⟩) :=
  join_next_payment_js_month dbOwnerOnly 2 1 ⟨2025, 1, 31⟩ false (by decide)

/-- Claim C9, counterexample: after a join whose fire-and-forget count
increment failed, the sqlite leave handler's unclamped
`member_count = member_count - 1` drives the counter to -1: starting from the
empty database, user 1 creates fanclub 1, users 2 and 3 each join while the
count update fails and then leave with it succeeding, and the final leave
answers success with the fanclub's `member_count` negative. -/
theorem leave_drives_member_count_negative :
    (leaveSql driftState4 3 1 false).1 = .ok ()
    ∧ driftState5 = (leaveSql driftState4 3 1 false).2
    ∧ (driftState5.fanclubs.any fun f => f.id == 1 && f.member_count < 0) = true := by
  decide

/-- Claim C9 as amended: the supabase `decrement_member_count` function is the
clamped decrement — `GREATEST(member_count - 1, 0)` — so the row it targets
never ends up negative; the sqlite leave handler's decrement is unclamped and
lacks this floor. -/
theorem decrement_member_count_clamped (st : Db) (fid : Nat) :
    ∀ f ∈ (decrement_member_count st fid).fanclubs, f.id = fid → 0 ≤ f.member_count := by
  intro f hf hid
  simp only [decrement_member_count] at hf
  rcases List.mem_map.mp hf with ⟨g, hg, hfe⟩
  by_cases hgid : (g.id == fid) = true
  · rw [if_pos hgid] at hfe
    rw [← hfe]
    exact le_max_right _ _
  · rw [if_neg hgid] at hfe
    rw [← hfe] at hid
    exact absurd (beq_iff_eq.mpr hid) hgid

/-- Witness for the amended C9 theorem at a concrete input: decrementing
fanclub 1 of `dbOwnerOnly` (count 1) leaves a non-negative count. -/
theorem decrement_member_count_clamped_witness :
    0 ≤ ({ id := 1, name := "club", description := "d", monthly_fee := 500,
           purpose := "fun", owner_id := 1, member_count := 0 } : FanclubRow).member_count :=
  decrement_member_count_clamped dbOwnerOnly 1 _ (by decide) (by decide)

/-- Claim C10: when the post-creation request omits the visibility field or
sends it empty — both falsy, so `visibility || 'public'` yields `'public'` —
the owner's new post is stored with visibility `public`. -/
theorem post_default_visibility (st : Db) (u fid : Nat) (t c e : String)
    (now : Nat) (v : Option String)
    (ht : t ≠ "") (hc : c ≠ "") (hown : isOwnerRow st u fid = true)
    (hv : v = none ∨ v = some "") :
    (createPostSql st u fid t c e v now).1 = .ok st.nextPostId
    ∧ ∃ p ∈ (createPostSql st u fid t c e v now).2.posts,
        p.id = st.nextPostId ∧ p.visibility = "public" := by
  have hvp : visibilityOrPublic v = "public" := by
    rcases hv with rfl | rfl <;> simp [visibilityOrPublic]
  constructor
  · simp [createPostSql, ht, hc, hown, hvp]
  · refine ⟨{ id := st.nextPostId, fanclub_id := fid, author_id := u, title := t,
              content := c, excerpt := e, visibility := "public",
              published_at := now }, ?_, rfl, rfl⟩
    simp [createPostSql, ht, hc, hown, hvp]

/-- Witness for the C10 theorem at a concrete input: owner 1 of fanclub 1
posts without a visibility field and the stored post is public. -/
theorem post_default_visibility_witness :
    (createPostSql dbOne 1 1 "t" "c" "" none 5).1 = .ok dbOne.nextPostId
    ∧ ∃ p ∈ (createPostSql dbOne 1 1 "t" "c" "" none 5).2.posts,
        p.id = dbOne.nextPostId ∧ p.visibility = "public" :=
  post_default_visibility dbOne 1 1 "t" "c" "" 5 none (by decide) (by decide)
    (by decide) (Or.inl rfl)

end Fanclub
